import Mathlib

set_option maxRecDepth 4000

/-!
Verification of the controller driver layer: battery decode, stick/d-pad/touch
report codec, change-set engine, calibration and NVS feature-protocol results,
and product-id dispatch.  Definitions are shallow embeddings of the JavaScript
sources; raw input reports are modelled as byte maps `Nat → Nat` (index to byte
value), a `DataView.getUint8` access becomes function application.
-/

/-- Result record of `parseBatteryStatus` (all three controller classes return
an object with these four fields). -/
structure BatteryStatus where
  bat_capacity : Nat
  cable_connected : Bool
  is_charging : Bool
  is_error : Bool
  deriving DecidableEq

/-- DS4 battery decode of the raw battery byte, from `DS4Controller.parseBatteryStatus`
(src/unnamed/part_000 lines 414-445 and the identical copy bundled in
src/js/controllers/ds5-edge-controller.js lines 169-197): low nibble is the level
code, bit 4 is the cable flag. -/
def ds4BatteryDecode (bat : Nat) : BatteryStatus :=
  let bat_data := bat &&& 0x0f
  let bat_status := (bat >>> 4) &&& 1
  let cable_connected := bat_status = 1
  if cable_connected then
    if bat_data < 10 then
      { bat_capacity := min (bat_data * 10 + 5) 100, cable_connected := true,
        is_charging := true, is_error := false }
    else if bat_data = 10 then
      { bat_capacity := 100, cable_connected := true, is_charging := true, is_error := false }
    else if bat_data = 11 then
      { bat_capacity := 100, cable_connected := true, is_charging := false, is_error := false }
    else
      { bat_capacity := 0, cable_connected := true, is_charging := false, is_error := true }
  else
    { bat_capacity := if bat_data < 10 then bat_data * 10 + 5 else 100,
      cable_connected := false, is_charging := false, is_error := false }

/-- Byte offset of the battery byte in a DS4 input report (`data.getUint8(29)`). -/
def ds4BatteryOffset : Nat := 29

/-- DS4 `parseBatteryStatus` on a whole input report. -/
def ds4ParseBatteryStatus (data : Nat → Nat) : BatteryStatus :=
  ds4BatteryDecode (data ds4BatteryOffset)

/-- Legacy DS5 battery decode from `DS5Controller.parseBatteryStatus` in
src/unnamed/part_001 lines 373-404; the byte it is applied to sits at offset 50. -/
def ds5LegacyBatteryDecode (bat : Nat) : BatteryStatus :=
  let bat_data := bat &&& 0x0f
  let bat_status := (bat >>> 4) &&& 1
  let cable_connected := bat_status = 1
  if cable_connected then
    if bat_data < 10 then
      { bat_capacity := min (bat_data * 10 + 5) 100, cable_connected := true,
        is_charging := true, is_error := false }
    else if bat_data = 10 then
      { bat_capacity := 100, cable_connected := true, is_charging := true, is_error := false }
    else if bat_data = 11 then
      { bat_capacity := 100, cable_connected := true, is_charging := false, is_error := false }
    else
      { bat_capacity := 0, cable_connected := true, is_charging := false, is_error := true }
  else
    { bat_capacity := if bat_data < 10 then bat_data * 10 + 5 else 100,
      cable_connected := false, is_charging := false, is_error := false }

/-- Byte offset of the battery byte in the legacy DS5 decode (`data.getUint8(50)`). -/
def ds5LegacyBatteryOffset : Nat := 50

/-- Current DS5 battery decode from `DS5Controller.parseBatteryStatus` in
src/js/controllers/ds5-controller.js lines 110-144 (inherited unchanged by
`DS5EdgeController`): low nibble is the charge, the full high nibble is a status
code switched over the cases 0, 1, 2, 15 with an error default. -/
def ds5BatteryDecode (bat : Nat) : BatteryStatus :=
  let bat_charge := bat &&& 0x0f
  let bat_status := bat >>> 4
  match bat_status with
  | 0 =>
    { bat_capacity := min (bat_charge * 10 + 5) 100, cable_connected := false,
      is_charging := false, is_error := false }
  | 1 =>
    { bat_capacity := min (bat_charge * 10 + 5) 100, cable_connected := true,
      is_charging := true, is_error := false }
  | 2 =>
    { bat_capacity := 100, cable_connected := true, is_charging := false, is_error := false }
  | 15 =>
    { bat_capacity := 0, cable_connected := true, is_charging := true, is_error := false }
  | _ =>
    { bat_capacity := 0, cable_connected := false, is_charging := false, is_error := true }

/-- Byte offset of the battery byte in the current DS5 decode (`data.getUint8(52)`). -/
def ds5BatteryOffset : Nat := 52

/-- Current DS5 `parseBatteryStatus` on a whole input report. -/
def ds5ParseBatteryStatus (data : Nat → Nat) : BatteryStatus :=
  ds5BatteryDecode (data ds5BatteryOffset)

/-- Battery mapping exactly as the specification words it (section 4.3): with
`level` the low nibble and `cable` bit 4 of the byte.  Cable connected:
level<10 gives min(level*10+5,100) charging, level=10 gives 100 charging,
level=11 gives 100 full (no charging, no error), level>11 gives capacity 0 with
error.  Cable disconnected: level<10 gives level*10+5 and otherwise 100, never
charging, never an error. -/
def specBatteryTable (b : Nat) : BatteryStatus :=
  let level := b &&& 0x0f
  let cable := (b >>> 4) &&& 1 = 1
  if cable then
    if level < 10 then
      { bat_capacity := min (level * 10 + 5) 100, cable_connected := true,
        is_charging := true, is_error := false }
    else if level = 10 then
      { bat_capacity := 100, cable_connected := true, is_charging := true, is_error := false }
    else if level = 11 then
      { bat_capacity := 100, cable_connected := true, is_charging := false, is_error := false }
    else
      { bat_capacity := 0, cable_connected := true, is_charging := false, is_error := true }
  else
    { bat_capacity := if level < 10 then level * 10 + 5 else 100,
      cable_connected := false, is_charging := false, is_error := false }

/-- C1: the DS4 battery decode realises the specified lookup table on every
possible input byte, and in particular level=11 with cable (byte 0x1b) gives
capacity 100 with charging=false and error=false, level=12 with cable (byte
0x1c) gives capacity 0 with error=true, and level=5 without cable (byte 0x05)
gives capacity 55. -/
theorem ds4_battery_decode_matches_spec_table :
    (∀ b : Fin 256, ds4BatteryDecode b.val = specBatteryTable b.val) ∧
    ds4BatteryDecode 0x1b =
      { bat_capacity := 100, cable_connected := true, is_charging := false, is_error := false } ∧
    ds4BatteryDecode 0x1c =
      { bat_capacity := 0, cable_connected := true, is_charging := false, is_error := true } ∧
    ds4BatteryDecode 0x05 =
      { bat_capacity := 55, cable_connected := false, is_charging := false, is_error := false } := by
  refine ⟨by decide, by decide, by decide, by decide⟩

/-- C2 counterexample: at input byte 0x20 the current DS5 decode
(src/js/controllers/ds5-controller.js) does not agree with the DS4 lookup
table: the DS5 decode reads status nibble 2 (charge complete, cable connected,
capacity 100) while the DS4 table reads bit 4 clear (on battery, capacity 5). -/
theorem ds5_battery_decode_differs_from_ds4_at_0x20 :
    ds5BatteryDecode 0x20 =
      { bat_capacity := 100, cable_connected := true, is_charging := false, is_error := false } ∧
    ds4BatteryDecode 0x20 =
      { bat_capacity := 5, cable_connected := false, is_charging := false, is_error := false } ∧
    ds5BatteryDecode 0x20 ≠ ds4BatteryDecode 0x20 := by
  refine ⟨by decide, by decide, by decide⟩

/-- C2 amended: the legacy DS5 battery decode (src/unnamed/part_001) applies
exactly the same mapping as the DS4 decode on every byte, with only the byte
offset differing (50 for legacy DS5, 29 for DS4); the current DS5 decode
(src/js/controllers/ds5-controller.js, offset 52) instead switches on the full
high nibble and diverges from the DS4 table (witnessed at byte 0x20). -/
theorem ds5_legacy_battery_decode_equals_ds4 :
    (∀ b : Fin 256, ds5LegacyBatteryDecode b.val = ds4BatteryDecode b.val) ∧
    ds5LegacyBatteryOffset = 50 ∧ ds4BatteryOffset = 29 ∧ ds5BatteryOffset = 52 ∧
    ds5BatteryDecode 0x20 =
      { bat_capacity := 100, cable_connected := true, is_charging := false,
        is_error := false } ∧
    ds4BatteryDecode 0x20 =
      { bat_capacity := 5, cable_connected := false, is_charging := false,
        is_error := false } := by
  refine ⟨by decide, rfl, rfl, rfl, by decide, by decide⟩

/-- C10: for each of the three battery decoders in the repository (DS4, current
DS5 shared by DS5-Edge, legacy DS5) and every possible input byte, the decoded
capacity is at most 100 (and at least 0 as a natural number), charging implies
cable connected, and an error implies capacity 0. -/
theorem battery_decode_invariants :
    ∀ b : Fin 256,
      ((ds4BatteryDecode b.val).bat_capacity ≤ 100 ∧
        ((ds4BatteryDecode b.val).is_charging = true →
          (ds4BatteryDecode b.val).cable_connected = true) ∧
        ((ds4BatteryDecode b.val).is_error = true →
          (ds4BatteryDecode b.val).bat_capacity = 0)) ∧
      ((ds5BatteryDecode b.val).bat_capacity ≤ 100 ∧
        ((ds5BatteryDecode b.val).is_charging = true →
          (ds5BatteryDecode b.val).cable_connected = true) ∧
        ((ds5BatteryDecode b.val).is_error = true →
          (ds5BatteryDecode b.val).bat_capacity = 0)) ∧
      ((ds5LegacyBatteryDecode b.val).bat_capacity ≤ 100 ∧
        ((ds5LegacyBatteryDecode b.val).is_charging = true →
          (ds5LegacyBatteryDecode b.val).cable_connected = true) ∧
        ((ds5LegacyBatteryDecode b.val).is_error = true →
          (ds5LegacyBatteryDecode b.val).bat_capacity = 0)) := by
  decide

/-- C10 witness: at byte 0x11 the DS4 decoder is charging with the cable
connected, and at byte 0x1f it is in error with capacity 0. -/
theorem battery_decode_invariants_witness :
    (ds4BatteryDecode 0x11).is_charging = true ∧
    (ds4BatteryDecode 0x11).cable_connected = true ∧
    (ds4BatteryDecode 0x1f).is_error = true ∧
    (ds4BatteryDecode 0x1f).bat_capacity = 0 :=
  ⟨by decide, (battery_decode_invariants 0x11).1.2.1 (by decide),
    by decide, (battery_decode_invariants 0x1f).1.2.2 (by decide)⟩

/-- JavaScript `Math.round`: round half toward positive infinity, i.e. the
floor of the argument plus one half (computable on rationals). -/
def jsRound (q : ℚ) : ℤ := Rat.floor (q + 1 / 2)

/-- Stick axis decode from `ControllerManager._recordButtonStates`
(src/js/controller-manager.js line 89): raw byte v maps to
`Math.round((v - 127.5) / 128 * 100) / 100`.  All intermediate values are
dyadic rationals with tiny numerators, so JavaScript double arithmetic is
exact here and the rational model is faithful. -/
def stickDecode (v : Nat) : ℚ := ((jsRound (((v : ℚ) - 127.5) / 128 * 100) : ℚ)) / 100

/-- Stick quantization formula exactly as the specification words it:
`round((v - 127.5) / 128 × 100) / 100`, with mathematical rounding to the
nearest integer. -/
def specStickFormula (v : Nat) : ℚ := ((round (((v : ℚ) - 127.5) / 128 * 100) : ℤ) : ℚ) / 100

/-- The computable floor on rationals agrees with the mathematical floor. -/
theorem rat_floor_eq_int_floor (q : ℚ) : Rat.floor q = ⌊q⌋ := by
  rw [Rat.floor_def, Rat.floor_def']

/-- The JavaScript rounding helper is exactly mathematical rounding. -/
theorem jsRound_eq_round (q : ℚ) : jsRound q = round q := by
  rw [jsRound, rat_floor_eq_int_floor, round_eq]

/-- Evaluation rule for the JavaScript rounding helper. -/
theorem jsRound_eq_of (q : ℚ) (z : ℤ) (h1 : (z : ℚ) ≤ q + 1 / 2) (h2 : q + 1 / 2 < z + 1) :
    jsRound q = z := by
  rw [jsRound, rat_floor_eq_int_floor]
  exact Int.floor_eq_iff.mpr ⟨h1, h2⟩

/-- Evaluation rule for the stick decode. -/
theorem stickDecode_eq_of (v : Nat) (z : ℤ)
    (h1 : (z : ℚ) ≤ ((v : ℚ) - 127.5) / 128 * 100 + 1 / 2)
    (h2 : ((v : ℚ) - 127.5) / 128 * 100 + 1 / 2 < z + 1) :
    stickDecode v = (z : ℚ) / 100 := by
  rw [stickDecode, jsRound_eq_of _ z h1 h2]

/-- Raw byte 0 decodes to -1.0. -/
theorem stickDecode_zero : stickDecode 0 = -1 := by
  rw [stickDecode_eq_of 0 (-100) (by norm_num) (by norm_num)]
  norm_num

/-- Raw byte 127 decodes to 0.0. -/
theorem stickDecode_127 : stickDecode 127 = 0 := by
  rw [stickDecode_eq_of 127 0 (by norm_num) (by norm_num)]
  norm_num

/-- Raw byte 128 decodes to 0.0. -/
theorem stickDecode_128 : stickDecode 128 = 0 := by
  rw [stickDecode_eq_of 128 0 (by norm_num) (by norm_num)]
  norm_num

/-- Raw byte 255 decodes to exactly 1.0. -/
theorem stickDecode_255 : stickDecode 255 = 1 := by
  rw [stickDecode_eq_of 255 100 (by norm_num) (by norm_num)]
  norm_num

/-- C3 counterexample: raw byte 255 decodes to exactly 1.0, not approximately
0.996 — the spec formula itself rounds 99.609375 up to 100, so even evaluating
the claimed formula at 255 yields 1.0. -/
theorem stick_decode_255_is_one :
    stickDecode 255 = 1 ∧ specStickFormula 255 = 1 ∧ (1 : ℚ) ≠ 996 / 1000 := by
  refine ⟨stickDecode_255, ?_, by norm_num⟩
  have h : specStickFormula 255 = stickDecode 255 := by
    rw [stickDecode, specStickFormula, jsRound_eq_round]
  rw [h, stickDecode_255]

/-- C3 amended: for every raw byte the decoded stick coordinate equals the
spec formula `round((v - 127.5) / 128 * 100) / 100`; raw byte 0 decodes to
-1.0, raw byte 128 decodes to 0.0, and raw byte 255 decodes to exactly 1.0
(not 0.996). -/
theorem stick_decode_matches_spec_formula :
    (∀ v : Fin 256, stickDecode v.val = specStickFormula v.val) ∧
    stickDecode 0 = -1 ∧ stickDecode 128 = 0 ∧ stickDecode 255 = 1 := by
  refine ⟨fun v => ?_, stickDecode_zero, stickDecode_128, stickDecode_255⟩
  rw [stickDecode, specStickFormula, jsRound_eq_round]

/-- Decoded d-pad directions (one Boolean per direction). -/
structure DpadState where
  up : Bool
  right : Bool
  down : Bool
  left : Bool
  deriving DecidableEq

/-- D-pad decode from `ControllerManager._recordButtonStates`
(src/js/controller-manager.js lines 113-119): the hat is the low nibble of the
d-pad byte and each direction covers three consecutive hat values. -/
def dpadDecode (b : Nat) : DpadState :=
  let hat := b &&& 0x0F
  { up := hat == 0 || hat == 1 || hat == 7,
    right := hat == 1 || hat == 2 || hat == 3,
    down := hat == 3 || hat == 4 || hat == 5,
    left := hat == 5 || hat == 6 || hat == 7 }

/-- C6: for every input byte, with hat its low nibble, up is set iff hat is in
{7,0,1}, right iff hat is in {1,2,3}, down iff hat is in {3,4,5}, left iff hat
is in {5,6,7}; hat=1 sets both up and right; and every hat value at least 8
sets no direction. -/
theorem dpad_decode_direction_table :
    ∀ b : Fin 256,
      ((dpadDecode b.val).up = true ↔ (b.val &&& 0x0F) ∈ ([7, 0, 1] : List Nat)) ∧
      ((dpadDecode b.val).right = true ↔ (b.val &&& 0x0F) ∈ ([1, 2, 3] : List Nat)) ∧
      ((dpadDecode b.val).down = true ↔ (b.val &&& 0x0F) ∈ ([3, 4, 5] : List Nat)) ∧
      ((dpadDecode b.val).left = true ↔ (b.val &&& 0x0F) ∈ ([5, 6, 7] : List Nat)) ∧
      ((dpadDecode 1).up = true ∧ (dpadDecode 1).right = true) ∧
      (8 ≤ b.val &&& 0x0F →
        dpadDecode b.val = { up := false, right := false, down := false, left := false }) := by
  decide

/-- C6 witness: byte 0xFA has hat value 10, which sets no direction. -/
theorem dpad_decode_direction_table_witness :
    8 ≤ (0xFA : Nat) &&& 0x0F ∧
    dpadDecode 0xFA = { up := false, right := false, down := false, left := false } :=
  ⟨by decide, (dpad_decode_direction_table 0xFA).2.2.2.2.2 (by decide)⟩

/-- Disjoint-range bitwise or is addition: a left-shifted value ored with a
value fitting in the shift width. -/
theorem shiftLeft_lor_eq_add (a b k : Nat) (hb : b < 2 ^ k) : (a <<< k) ||| b = a * 2 ^ k + b := by
  apply Nat.eq_of_testBit_eq
  intro i
  rw [Nat.testBit_lor, Nat.testBit_shiftLeft]
  by_cases h : k ≤ i
  · have h1 : (a * 2 ^ k + b) / 2 ^ k = a := by
      rw [mul_comm, Nat.mul_add_div (Nat.pos_pow_of_pos k (by norm_num)), Nat.div_eq_of_lt hb]
      omega
    have h3 := Nat.testBit_shiftRight (i := k) (j := i - k) (a * 2 ^ k + b)
    rw [Nat.shiftRight_eq_div_pow, h1] at h3
    have hik : k + (i - k) = i := by omega
    rw [hik] at h3
    have hb2 : b.testBit i = false :=
      Nat.testBit_lt_two_pow (lt_of_lt_of_le hb (Nat.pow_le_pow_right (by norm_num) h))
    simp [h, ← h3, hb2]
  · have hmod : (a * 2 ^ k + b) % 2 ^ k = b := by
      rw [mul_comm, Nat.mul_add_mod, Nat.mod_eq_of_lt hb]
    have h3 := Nat.testBit_mod_two_pow (a * 2 ^ k + b) k i
    rw [hmod] at h3
    have hik : i < k := by omega
    simp [hik] at h3
    simp [h, h3]

/-- Masking with 0x0F is reduction modulo 16. -/
theorem land_mod_16 (n : Nat) : n &&& 15 = n % 16 := by
  have h := Nat.and_pow_two_sub_one_eq_mod n 4
  norm_num at h
  exact h

/-- Masking with 0x7F is reduction modulo 128. -/
theorem land_mod_128 (n : Nat) : n &&& 127 = n % 128 := by
  have h := Nat.and_pow_two_sub_one_eq_mod n 7
  norm_num at h
  exact h

/-- Masking with 0xFF is reduction modulo 256. -/
theorem land_mod_256 (n : Nat) : n &&& 255 = n % 256 := by
  have h := Nat.and_pow_two_sub_one_eq_mod n 8
  norm_num at h
  exact h

/-- Masking with 0x80 extracts bit 7. -/
theorem land_bit7 (n : Nat) : n &&& 128 = n / 128 % 2 * 128 := by
  have h2 : n &&& 128 = (n.testBit 7).toNat * 128 := by
    rw [show (128 : Nat) = 2 ^ 7 from rfl]
    exact Nat.and_two_pow n 7
  rw [h2, Nat.testBit_to_div_mod, show (2 : Nat) ^ 7 = 128 from rfl]
  rcases Nat.mod_two_eq_zero_or_one (n / 128) with h | h <;> rw [h] <;> rfl

/-- Shift by 4 then or with a nibble. -/
theorem shift4_lor (a b : Nat) (hb : b < 16) : (a <<< 4) ||| b = a * 16 + b := by
  have h := shiftLeft_lor_eq_add a b 4 (by norm_num [hb])
  norm_num at h
  exact h

/-- Shift by 8 then or with a byte. -/
theorem shift8_lor (a b : Nat) (hb : b < 256) : (a <<< 8) ||| b = a * 256 + b := by
  have h := shiftLeft_lor_eq_add a b 8 (by norm_num [hb])
  norm_num at h
  exact h

/-- One decoded touchpad point. -/
structure TouchPoint where
  active : Bool
  id : Nat
  x : Nat
  y : Nat
  deriving DecidableEq

/-- Decode of one 4-byte touch slot, from `ControllerManager._parseTouchPoints`
(src/js/controller-manager.js lines 165-180): byte0 high bit clear means
active, low 7 bits are the point id; x spans byte1 and the low nibble of
byte2; y spans the high nibble of byte2 and byte3. -/
def parseTouchSlot (b0 b1 b2 b3 : Nat) : TouchPoint :=
  { active := (b0 &&& 0x80) == 0,
    id := b0 &&& 0x7F,
    x := ((b2 &&& 0x0F) <<< 8) ||| b1,
    y := (b3 <<< 4) ||| (b2 >>> 4) }

/-- `_parseTouchPoints`: two consecutive 4-byte slots starting at the model's
touchpad offset. -/
def parseTouchPoints (data : Nat → Nat) (offset : Nat) : List TouchPoint :=
  ([0, 1] : List Nat).map fun i =>
    parseTouchSlot (data (offset + i * 4)) (data (offset + i * 4 + 1))
      (data (offset + i * 4 + 2)) (data (offset + i * 4 + 3))

/-- The four bytes of one packed touch slot. -/
structure TouchSlotBytes where
  b0 : Nat
  b1 : Nat
  b2 : Nat
  b3 : Nat

/-- Packing of one touch point into its 4-byte slot following the bit layout
stated in the specification (section 4.2): byte0 high bit set means inactive
and its low 7 bits are the point id; byte1 is the low 8 bits of the 12-bit x;
byte2 carries the low nibble of y in its high nibble and the high nibble of x
in its low nibble; byte3 is the high 8 bits of the 12-bit y.  The repository
contains only the decoder, so this encoder is the inverse construction that the
round-trip claim quantifies over. -/
def packTouchSlot (active : Bool) (id x y : Nat) : TouchSlotBytes :=
  { b0 := (if active then 0 else 0x80) ||| (id &&& 0x7F),
    b1 := x &&& 0xFF,
    b2 := ((y &&& 0x0F) <<< 4) ||| ((x >>> 8) &&& 0x0F),
    b3 := (y >>> 4) &&& 0xFF }

/-- C7: decoding a packed 4-byte touch slot recovers the active flag, the
7-bit id and the 12-bit x and y exactly. -/
theorem touch_slot_roundtrip (active : Bool) (id x y : Nat)
    (hid : id < 128) (hx : x < 4096) (hy : y < 4096) :
    parseTouchSlot (packTouchSlot active id x y).b0 (packTouchSlot active id x y).b1
        (packTouchSlot active id x y).b2 (packTouchSlot active id x y).b3 =
      { active := active, id := id, x := x, y := y } := by
  have hxhi : x >>> 8 = x / 256 := by
    rw [Nat.shiftRight_eq_div_pow]
  have hyhi : y >>> 4 = y / 16 := by
    rw [Nat.shiftRight_eq_div_pow]
  have hxhi_lt : x / 256 < 16 := by omega
  have hb0 : (packTouchSlot active id x y).b0 = (if active then 0 else 128) + id := by
    show ((if active then 0 else 0x80) ||| (id &&& 0x7F)) = _
    rw [land_mod_128, Nat.mod_eq_of_lt hid]
    cases active
    · show (128 ||| id) = 128 + id
      have h := shiftLeft_lor_eq_add 1 id 7 (by norm_num [hid])
      norm_num at h
      exact h
    · simp
  have hb1 : (packTouchSlot active id x y).b1 = x % 256 := by
    show (x &&& 0xFF) = _
    rw [land_mod_256]
  have hb2 : (packTouchSlot active id x y).b2 = y % 16 * 16 + x / 256 := by
    show (((y &&& 0x0F) <<< 4) ||| ((x >>> 8) &&& 0x0F)) = _
    rw [land_mod_16, land_mod_16, hxhi, Nat.mod_eq_of_lt hxhi_lt,
      shift4_lor _ _ hxhi_lt]
  have hb3 : (packTouchSlot active id x y).b3 = y / 16 := by
    show (((y >>> 4)) &&& 0xFF) = _
    rw [land_mod_256, hyhi, Nat.mod_eq_of_lt (by omega)]
  rw [parseTouchSlot, hb0, hb1, hb2, hb3]
  have hactive : ((((if active then 0 else 128) + id) &&& 128) == 0) = active := by
    rw [land_bit7]
    cases active
    · rw [if_neg Bool.false_ne_true]
      have h : (128 + id) / 128 % 2 * 128 = 128 := by omega
      rw [h]
      rfl
    · rw [if_pos rfl]
      have h : (0 + id) / 128 % 2 * 128 = 0 := by omega
      rw [h]
      rfl
  have hid2 : (((if active then 0 else 128) + id) &&& 127) = id := by
    rw [land_mod_128]
    cases active
    · rw [if_neg Bool.false_ne_true]
      omega
    · rw [if_pos rfl]
      omega
  have hxa : (((y % 16 * 16 + x / 256) &&& 15) <<< 8) ||| x % 256 = x := by
    rw [land_mod_16]
    have hm : (y % 16 * 16 + x / 256) % 16 = x / 256 := by omega
    rw [hm, shift8_lor _ _ (by omega)]
    omega
  have hya : ((y / 16) <<< 4) ||| ((y % 16 * 16 + x / 256) >>> 4) = y := by
    have hs : (y % 16 * 16 + x / 256) >>> 4 = y % 16 := by
      rw [Nat.shiftRight_eq_div_pow]
      norm_num
      omega
    rw [hs, shift4_lor _ _ (by omega)]
    omega
  rw [hactive, hid2, hxa, hya]

/-- C7 witness: the packed slot with x=0x123, y=0x456, id 42, active, decodes
back to exactly those values. -/
theorem touch_slot_roundtrip_witness :
    (42 : Nat) < 128 ∧ (0x123 : Nat) < 4096 ∧ (0x456 : Nat) < 4096 ∧
    parseTouchSlot (packTouchSlot true 42 0x123 0x456).b0 (packTouchSlot true 42 0x123 0x456).b1
        (packTouchSlot true 42 0x123 0x456).b2 (packTouchSlot true 42 0x123 0x456).b3 =
      { active := true, id := 42, x := 0x123, y := 0x456 } :=
  ⟨by norm_num, by norm_num, by norm_num,
    touch_slot_roundtrip true 42 0x123 0x456 (by norm_num) (by norm_num) (by norm_num)⟩

/-- The three controller model variants constructed by the factory. -/
inductive ControllerModel where
  | DS4
  | DS5
  | DS5_Edge
  deriving DecidableEq

/-- Dispatch failure, from the thrown `Unsupported device` error in
`ControllerFactory.createControllerInstance`: the message carries the vendor id
and the product id. -/
inductive FactoryError where
  | unsupportedDevice (vendorId productId : Nat)
  deriving DecidableEq

/-- Product dispatch from `ControllerFactory.createControllerInstance`
(src/js/controllers/controller-factory.js lines 17-32): a pure switch on the
product id; it performs no transport operation. -/
def createControllerInstance (vendorId productId : Nat) :
    Except FactoryError ControllerModel :=
  if productId = 0x05c4 then .ok .DS4
  else if productId = 0x09cc then .ok .DS4
  else if productId = 0x0ce6 then .ok .DS5
  else if productId = 0x0df2 then .ok .DS5_Edge
  else .error (.unsupportedDevice vendorId productId)

/-- The supported model filter list from `ControllerFactory.getSupportedModels`
(src/js/controllers/controller-factory.js lines 9-15), as (vendorId, productId)
pairs. -/
def getSupportedModels : List (Nat × Nat) :=
  [(0x054c, 0x05c4), (0x054c, 0x09cc), (0x054c, 0x0ce6), (0x054c, 0x0df2)]

/-- C9: dispatch maps 0x05c4 and 0x09cc to the DS4 variant, 0x0ce6 to DS5 and
0x0df2 to DS5-Edge, and every other product id to an `unsupportedDevice`
failure carrying the vendor and product id, with no fallback variant; the four
mapped ids are exactly the product ids of the supported-models list.  The
dispatch function is pure, so no transport I/O can occur. -/
theorem factory_dispatch_exhaustive :
    (∀ vendorId : Nat,
      createControllerInstance vendorId 0x05c4 = .ok .DS4 ∧
      createControllerInstance vendorId 0x09cc = .ok .DS4 ∧
      createControllerInstance vendorId 0x0ce6 = .ok .DS5 ∧
      createControllerInstance vendorId 0x0df2 = .ok .DS5_Edge ∧
      ∀ productId : Nat, productId ≠ 0x05c4 → productId ≠ 0x09cc →
        productId ≠ 0x0ce6 → productId ≠ 0x0df2 →
        createControllerInstance vendorId productId =
          .error (.unsupportedDevice vendorId productId)) ∧
    getSupportedModels.map Prod.snd = [0x05c4, 0x09cc, 0x0ce6, 0x0df2] := by
  refine ⟨fun vendorId => ⟨rfl, rfl, rfl, rfl, fun productId h1 h2 h3 h4 => ?_⟩, rfl⟩
  rw [createControllerInstance, if_neg h1, if_neg h2, if_neg h3, if_neg h4]

/-- C9 witness: product id 0x9999 is dispatched to an `unsupportedDevice`
failure carrying vendor 0x054c and product 0x9999. -/
theorem factory_dispatch_exhaustive_witness :
    createControllerInstance 0x054c 0x9999 =
      .error (.unsupportedDevice 0x054c 0x9999) :=
  (factory_dispatch_exhaustive.1 0x054c).2.2.2.2 0x9999
    (by norm_num) (by norm_num) (by norm_num) (by norm_num)

/-- The error value attached to a failed calibration result: either the
DS4 not-genuine diagnostic (the constant message
"Your device might not be a genuine Sony controller. ...") or the DS5 step
message "Stick center calibration begin failed: d1" with the observed word
interpolated. -/
inductive CalMsg where
  | notGenuine
  | centerBeginFailed (observed : Nat)
  deriving DecidableEq

/-- Big-endian 32-bit word of a 4-byte buffer (`DataView.getUint32(0, false)`). -/
def be32 (l : List Nat) : Nat :=
  match l with
  | [b0, b1, b2, b3] => ((b0 * 256 + b1) * 256 + b2) * 256 + b3
  | _ => 0

/-- The guarded read `v.buffer.byteLength == 4 ? v.getUint32(0, false) :
undefined` used by the DS4 calibration assertions. -/
def readMagic (l : List Nat) : Option Nat :=
  if l.length = 4 then some (be32 l) else none

/-- Result object of `DS4Controller.calibrateSticksBegin`: `ok`, and on the
mismatch branch an `error` (the not-genuine message), `code: 1` and the two
observed words `d1`, `d2`. -/
structure DS4CalResult where
  ok : Bool
  error : Option CalMsg
  code : Option Nat
  d1 : Option Nat
  d2 : Option Nat
  deriving DecidableEq

/-- `DS4Controller.calibrateSticksBegin` (src/unnamed/part_000 lines 291-316)
as a function of the two status feature-report buffers read back after the
begin command: both 32-bit words must equal the expected magic values
0x91010101 and 0x920101ff, otherwise the mismatch result is returned. -/
def ds4CalibrateSticksBegin (r1 r2 : List Nat) : DS4CalResult :=
  let d1 := readMagic r1
  let d2 := readMagic r2
  if d1 ≠ some 0x91010101 ∨ d2 ≠ some 0x920101ff then
    { ok := false, error := some .notGenuine, code := some 1, d1 := d1, d2 := d2 }
  else
    { ok := true, error := none, code := none, d1 := none, d2 := none }

/-- The feature reports sent by `DS4Controller.calibrateSticksBegin`: exactly
one command, 0x90 with payload [1,1,1]; the status reads use ids 0x91 and 0x92
but send nothing. -/
def ds4CalibrateSticksBeginSends : List (Nat × List Nat) := [(0x90, [1, 1, 1])]

/-- The DS4 sample command (report 0x90 payload [3,1,1], sent by
`calibrateSticksSample`). -/
def ds4SampleCommand : Nat × List Nat := (0x90, [3, 1, 1])

/-- The DS4 end command (report 0x90 payload [2,1,1], sent by
`calibrateSticksEnd`). -/
def ds4EndCommand : Nat × List Nat := (0x90, [2, 1, 1])

/-- Result object of `DS5Controller.calibrateSticksBegin`: `ok`, and on the
mismatch branch the thrown-and-caught step error carrying the observed word. -/
structure DS5CalResult where
  ok : Bool
  error : Option CalMsg
  deriving DecidableEq

/-- `DS5Controller.calibrateSticksBegin` (src/unnamed/part_001 lines 246-264)
as a function of the 32-bit status word read back after the begin command: the
word must equal the expected magic 0x83010101, otherwise the step error with
the observed word is thrown, caught, and returned as a failed result. -/
def ds5CalibrateSticksBegin (d : Nat) : DS5CalResult :=
  if d ≠ 0x83010101 then
    { ok := false, error := some (.centerBeginFailed d) }
  else
    { ok := true, error := none }

/-- The feature reports sent by `DS5Controller.calibrateSticksBegin`: exactly
one command, 0x82 with payload [1,1,1]. -/
def ds5CalibrateSticksBeginSends : List (Nat × List Nat) := [(0x82, [1, 1, 1])]

/-- The DS5 sample command (report 0x82 payload [3,1,1], sent by
`calibrateSticksSample`). -/
def ds5SampleCommand : Nat × List Nat := (0x82, [3, 1, 1])

/-- The DS5 end command (report 0x82 payload [2,1,1], sent by
`calibrateSticksEnd`). -/
def ds5EndCommand : Nat × List Nat := (0x82, [2, 1, 1])

/-- Numeric values mentioned by a DS4 calibration result (its code and the two
observed words; the error message is the constant not-genuine text and holds
no number). -/
def DS4CalResult.mentionsNat (r : DS4CalResult) (m : Nat) : Prop :=
  r.code = some m ∨ r.d1 = some m ∨ r.d2 = some m ∨
    r.error = some (.centerBeginFailed m)

/-- Numeric values mentioned by a DS5 calibration result (the observed word
interpolated into the step error message). -/
def DS5CalResult.mentionsNat (r : DS5CalResult) (m : Nat) : Prop :=
  r.error = some (.centerBeginFailed m)

instance (r : DS4CalResult) (m : Nat) : Decidable (r.mentionsNat m) := by
  unfold DS4CalResult.mentionsNat
  infer_instance

instance (r : DS5CalResult) (m : Nat) : Decidable (r.mentionsNat m) := by
  unfold DS5CalResult.mentionsNat
  infer_instance

/-- C4 counterexample: on all-zero status responses, the failed DS4 Begin
result carries the observed words (0) and the not-genuine hint but nowhere
carries the expected magic values 0x91010101 / 0x920101ff, and the failed DS5
Begin result carries the observed word in its step message but has no
not-genuine hint at all — so a failure does not carry "both the observed and
the expected" values, and the DS5 variant lacks the genuineness diagnostic. -/
theorem calibrate_begin_mismatch_lacks_expected_magic :
    ds4CalibrateSticksBegin [0, 0, 0, 0] [0, 0, 0, 0] =
      { ok := false, error := some .notGenuine, code := some 1,
        d1 := some 0, d2 := some 0 } ∧
    ¬ (ds4CalibrateSticksBegin [0, 0, 0, 0] [0, 0, 0, 0]).mentionsNat 0x91010101 ∧
    ¬ (ds4CalibrateSticksBegin [0, 0, 0, 0] [0, 0, 0, 0]).mentionsNat 0x920101ff ∧
    ds5CalibrateSticksBegin 0 =
      { ok := false, error := some (.centerBeginFailed 0) } ∧
    (ds5CalibrateSticksBegin 0).error ≠ some CalMsg.notGenuine := by
  refine ⟨by decide, by decide, by decide, by decide, by decide⟩

/-- C4 amended: for each variant, a Begin whose status response does not match
the model's expected magic returns a failed (not ok) result carrying the
observed value(s) — the DS4 result as its `d1`/`d2` fields together with the
not-genuine diagnostic hint and code 1, the DS5 result inside a step-naming
error message (with no genuineness hint); the expected magic is not part of
the result; and the Begin operation itself sends only its begin command, never
the Sample or End command, after such a failure. -/
theorem calibrate_begin_mismatch_behaviour :
    (∀ r1 r2 : List Nat,
      (readMagic r1 ≠ some 0x91010101 ∨ readMagic r2 ≠ some 0x920101ff) →
      ds4CalibrateSticksBegin r1 r2 =
        { ok := false, error := some .notGenuine, code := some 1,
          d1 := readMagic r1, d2 := readMagic r2 }) ∧
    (∀ d : Nat, d ≠ 0x83010101 →
      ds5CalibrateSticksBegin d =
        { ok := false, error := some (.centerBeginFailed d) }) ∧
    ¬ (ds4CalibrateSticksBegin [1, 1, 1, 1] [1, 1, 1, 1]).mentionsNat 0x91010101 ∧
    ¬ (ds4CalibrateSticksBegin [1, 1, 1, 1] [1, 1, 1, 1]).mentionsNat 0x920101ff ∧
    ¬ (ds5CalibrateSticksBegin 1).mentionsNat 0x83010101 ∧
    ds4SampleCommand ∉ ds4CalibrateSticksBeginSends ∧
    ds4EndCommand ∉ ds4CalibrateSticksBeginSends ∧
    ds5SampleCommand ∉ ds5CalibrateSticksBeginSends ∧
    ds5EndCommand ∉ ds5CalibrateSticksBeginSends := by
  refine ⟨fun r1 r2 h => ?_, fun d h => ?_, by decide, by decide, by decide,
    by decide, by decide, by decide, by decide⟩
  · rw [ds4CalibrateSticksBegin, if_pos h]
  · rw [ds5CalibrateSticksBegin, if_pos h]

/-- C4 witness: status responses [9,9,9,9] (word 0x09090909) and word 5
mismatch the expected magic values and produce the described failed results. -/
theorem calibrate_begin_mismatch_behaviour_witness :
    ds4CalibrateSticksBegin [9, 9, 9, 9] [9, 9, 9, 9] =
      { ok := false, error := some .notGenuine, code := some 1,
        d1 := some 0x09090909, d2 := some 0x09090909 } ∧
    ds5CalibrateSticksBegin 5 =
      { ok := false, error := some (.centerBeginFailed 5) } := by
  constructor
  · have h := calibrate_begin_mismatch_behaviour.1 [9, 9, 9, 9] [9, 9, 9, 9]
      (by decide)
    rw [h]
    decide
  · exact calibrate_begin_mismatch_behaviour.2.1 5 (by decide)

/-- Cause attached to a failed `flash()`: the DS5 unlock throw
`Error("NVS Unlock failed", {cause})` or a failed lock result. -/
inductive FlashCause where
  | nvsUnlockFailed
  | lockFailed
  deriving DecidableEq

/-- Outcome of a controller `flash()` call: the success object
`{ success: true, message }` or the thrown wrapper
`Error("Error while saving changes", { cause })`. -/
inductive FlashResult where
  | success (message : String)
  | errorSaving (cause : FlashCause)
  deriving DecidableEq

/-- Result object of the DS4 NVS operations, which catch transport errors and
return `{ ok: false, error }` instead of throwing. -/
structure NvsOpResult where
  ok : Bool
  deriving DecidableEq

/-- `DS4Controller.nvsUnlock` (src/unnamed/part_000 lines 228-236): sends the
magic unlock payload [10,2,0x3e,0x71,0x7f,0x89] on report 0xa0 once and maps a
transport rejection to `{ ok: false }` — it never throws. -/
def ds4NvsUnlock (unlockAccepted : Bool) : NvsOpResult :=
  if unlockAccepted then { ok := true } else { ok := false }

/-- `DS4Controller.nvsLock` (src/unnamed/part_000 lines 218-226). -/
def ds4NvsLock (lockAccepted : Bool) : NvsOpResult :=
  if lockAccepted then { ok := true } else { ok := false }

/-- `DS4Controller.flash` (src/unnamed/part_000 lines 197-208): awaits
`nvsUnlock()` but discards its result object, then checks only the lock
result, throwing the wrapper error when the lock failed. -/
def ds4Flash (unlockAccepted lockAccepted : Bool) : FlashResult :=
  let _unlockRes := ds4NvsUnlock unlockAccepted
  let lockRes := ds4NvsLock lockAccepted
  if lockRes.ok then .success "Changes saved successfully"
  else .errorSaving .lockFailed

/-- `DS5Controller.nvsUnlock` (src/unnamed/part_001 lines 218-226): sends the
magic unlock payload [3,2,101,50,64,12] on report 0x80 once and rethrows a
transport rejection as `Error("NVS Unlock failed", {cause})`. -/
def ds5NvsUnlock (unlockAccepted : Bool) : Except FlashCause Unit :=
  if unlockAccepted then .ok () else .error .nvsUnlockFailed

/-- `DS5Controller.nvsLock` (src/unnamed/part_001 lines 208-216). -/
def ds5NvsLock (lockAccepted : Bool) : NvsOpResult :=
  if lockAccepted then { ok := true } else { ok := false }

/-- `DS5Controller.flash` (src/unnamed/part_001 lines 187-198): the unlock
throw propagates into the catch, which wraps it as
`Error("Error while saving changes", { cause })`, so a failed unlock aborts
the flash before the lock result is consulted. -/
def ds5Flash (unlockAccepted lockAccepted : Bool) : FlashResult :=
  match ds5NvsUnlock unlockAccepted with
  | .error e => .errorSaving e
  | .ok _ =>
    let lockRes := ds5NvsLock lockAccepted
    if lockRes.ok then .success "Changes saved successfully"
    else .errorSaving .lockFailed

/-- C5: with the transport rejecting the NVS unlock request but accepting the
lock request, the DS5 `flash()` fails unrecoverably with the unlock cause
attached, as claimed — but the DS4 `flash()` returns plain success because it
discards the `{ ok: false }` result of its non-throwing `nvsUnlock`, so for
the DS4 variant an unlock failure is not fatal to `flash()`, contradicting
the claim (and the DS4 code's own pattern of checking `lockRes.ok`). -/
theorem flash_after_unlock_failure :
    ds4Flash false true = .success "Changes saved successfully" ∧
    ds5Flash false true = .errorSaving .nvsUnlockFailed ∧
    ds5Flash true true = .success "Changes saved successfully" :=
  ⟨rfl, rfl, rfl⟩

/-- One decoded stick position (pair of quantized coordinates). -/
structure StickPair where
  x : ℚ
  y : ℚ
  deriving DecidableEq

/-- Both decoded stick positions. -/
structure Sticks where
  left : StickPair
  right : StickPair
  deriving DecidableEq

/-- Stick decode of report bytes 0-3, from `_recordButtonStates`
(src/js/controller-manager.js lines 87-94). -/
def decodeSticks (data : Nat → Nat) : Sticks :=
  { left := { x := stickDecode (data 0), y := stickDecode (data 1) },
    right := { x := stickDecode (data 2), y := stickDecode (data 3) } }

/-- `ControllerManager._sticksChanged` (src/js/controller-manager.js lines
79-82). -/
def sticksChanged (current newValues : Sticks) : Bool :=
  current.left.x != newValues.left.x || current.left.y != newValues.left.y ||
    current.right.x != newValues.right.x || current.right.y != newValues.right.y

theorem sticksChanged_self (a : Sticks) : sticksChanged a a = false := by
  simp [sticksChanged]

theorem sticksChanged_iff (a b : Sticks) : sticksChanged a b = true ↔ a ≠ b := by
  obtain ⟨⟨alx, aly⟩, ⟨arx, ary⟩⟩ := a
  obtain ⟨⟨blx, bly⟩, ⟨brx, bry⟩⟩ := b
  simp only [sticksChanged, Bool.or_eq_true, bne_iff_ne, ne_eq, Sticks.mk.injEq,
    StickPair.mk.injEq]
  tauto

/-- One entry of a button map: name, report byte offset, bit mask (the svg
render tag of the source is UI-only and omitted). -/
structure BtnEntry where
  name : String
  byte : Nat
  mask : Nat

/-- Per-model input decode configuration (`DS4_INPUT_CONFIG` /
`DS5_INPUT_CONFIG` shape). -/
structure InputConfig where
  buttonMap : List BtnEntry
  dpadByte : Nat
  l2AnalogByte : Nat
  r2AnalogByte : Nat
  touchpadOffset : Option Nat

/-- `DS4_BUTTON_MAP` (src/unnamed/part_000 lines 16-36). -/
def DS4_BUTTON_MAP : List BtnEntry :=
  [⟨"up", 4, 0x0⟩, ⟨"right", 4, 0x1⟩, ⟨"down", 4, 0x2⟩, ⟨"left", 4, 0x3⟩,
    ⟨"square", 4, 0x10⟩, ⟨"cross", 4, 0x20⟩, ⟨"circle", 4, 0x40⟩, ⟨"triangle", 4, 0x80⟩,
    ⟨"l1", 5, 0x01⟩, ⟨"l2", 5, 0x04⟩, ⟨"r1", 5, 0x02⟩, ⟨"r2", 5, 0x08⟩,
    ⟨"create", 5, 0x10⟩, ⟨"options", 5, 0x20⟩, ⟨"l3", 5, 0x40⟩, ⟨"r3", 5, 0x80⟩,
    ⟨"ps", 6, 0x01⟩, ⟨"touchpad", 6, 0x02⟩]

/-- `DS4_INPUT_CONFIG` (src/unnamed/part_000 lines 39-45). -/
def DS4_INPUT_CONFIG : InputConfig :=
  { buttonMap := DS4_BUTTON_MAP, dpadByte := 4, l2AnalogByte := 7, r2AnalogByte := 8,
    touchpadOffset := some 34 }

/-- `DS5_BUTTON_MAP` (src/js/controllers/ds5-controller.js lines 14-34). -/
def DS5_BUTTON_MAP : List BtnEntry :=
  [⟨"up", 7, 0x0⟩, ⟨"right", 7, 0x1⟩, ⟨"down", 7, 0x2⟩, ⟨"left", 7, 0x3⟩,
    ⟨"square", 7, 0x10⟩, ⟨"cross", 7, 0x20⟩, ⟨"circle", 7, 0x40⟩, ⟨"triangle", 7, 0x80⟩,
    ⟨"l1", 8, 0x01⟩, ⟨"l2", 4, 0xff⟩, ⟨"r1", 8, 0x02⟩, ⟨"r2", 5, 0xff⟩,
    ⟨"create", 8, 0x10⟩, ⟨"options", 8, 0x20⟩, ⟨"l3", 8, 0x40⟩, ⟨"r3", 8, 0x80⟩,
    ⟨"ps", 9, 0x01⟩, ⟨"touchpad", 9, 0x02⟩, ⟨"mute", 9, 0x04⟩]

/-- `DS5_INPUT_CONFIG` (src/js/controllers/ds5-controller.js lines 36-42). -/
def DS5_INPUT_CONFIG : InputConfig :=
  { buttonMap := DS5_BUTTON_MAP, dpadByte := 7, l2AnalogByte := 4, r2AnalogByte := 5,
    touchpadOffset := some 32 }

/-- The decoded state held in `this.button_states` between two reports. -/
structure ButtonStates where
  sticks : Sticks
  l2_analog : Nat
  r2_analog : Nat
  dpad : DpadState
  buttons : String → Bool

/-- The sparse change object built by `_recordButtonStates`: a field is `none`
(absent key) when the decoded value equals the stored one.  Battery data never
enters this object (it is reported separately by `processControllerInput`). -/
@[ext]
structure ChangeSet where
  sticks : Option Sticks
  l2_analog : Option Nat
  r2_analog : Option Nat
  up : Option Bool
  right : Option Bool
  down : Option Bool
  left : Option Bool
  buttons : List (String × Bool)
  deriving DecidableEq

/-- The four d-pad names skipped by the button-map loop. -/
def dpadNames : List String := ["up", "right", "down", "left"]

/-- Discrete button decode: `(data.getUint8(btn.byte) & btn.mask) !== 0`. -/
def buttonPressed (data : Nat → Nat) (e : BtnEntry) : Bool :=
  (data e.byte &&& e.mask) != 0

/-- The button-map loop of `_recordButtonStates` (src/js/controller-manager.js
lines 128-135): d-pad names are skipped, every other entry is compared with
the stored state, which is updated as the loop walks the map. -/
def recordMapButtons (data : Nat → Nat) :
    List BtnEntry → (String → Bool) → List (String × Bool)
  | [], _ => []
  | e :: rest, st =>
    if e.name ∈ dpadNames then
      recordMapButtons data rest st
    else
      let pressed := buttonPressed data e
      if pressed != st e.name then
        (e.name, pressed) ::
          recordMapButtons data rest (fun m => if m = e.name then pressed else st m)
      else
        recordMapButtons data rest st

/-- `ControllerManager._recordButtonStates` (src/js/controller-manager.js
lines 84-138), returning the change object (the state mutation is the same
comparison, so the changes determine it). -/
def recordButtonStates (prev : ButtonStates) (data : Nat → Nat) (cfg : InputConfig) :
    ChangeSet :=
  let newSticks := decodeSticks data
  let l2v := data cfg.l2AnalogByte
  let r2v := data cfg.r2AnalogByte
  let newDpad := dpadDecode (data cfg.dpadByte)
  { sticks := if sticksChanged prev.sticks newSticks then some newSticks else none,
    l2_analog := if l2v != prev.l2_analog then some l2v else none,
    r2_analog := if r2v != prev.r2_analog then some r2v else none,
    up := if newDpad.up != prev.dpad.up then some newDpad.up else none,
    right := if newDpad.right != prev.dpad.right then some newDpad.right else none,
    down := if newDpad.down != prev.dpad.down then some newDpad.down else none,
    left := if newDpad.left != prev.dpad.left then some newDpad.left else none,
    buttons := recordMapButtons data cfg.buttonMap prev.buttons }

/-- When every map entry decodes to its stored value, the loop reports no
button change. -/
theorem recordMapButtons_eq_nil (data : Nat → Nat) (map : List BtnEntry)
    (st : String → Bool) (h : ∀ e ∈ map, buttonPressed data e = st e.name) :
    recordMapButtons data map st = [] := by
  induction map with
  | nil => rfl
  | cons e rest ih =>
    simp only [recordMapButtons]
    by_cases hd : e.name ∈ dpadNames
    · rw [if_pos hd]
      exact ih fun e2 he2 => h e2 (List.mem_cons_of_mem _ he2)
    · rw [if_neg hd, h e (List.mem_cons_self _ _), bne_self_eq_false, if_neg (by simp)]
      exact ih fun e2 he2 => h e2 (List.mem_cons_of_mem _ he2)

/-- Membership in the button change list, for a map without duplicate names:
a pair (n, v) is reported exactly when some non-d-pad entry named n decodes to
v and v differs from the stored value. -/
theorem recordMapButtons_mem_iff (data : Nat → Nat) (map : List BtnEntry)
    (st : String → Bool) (hnd : (map.map BtnEntry.name).Nodup) (n : String) (v : Bool) :
    (n, v) ∈ recordMapButtons data map st ↔
      ∃ e ∈ map, e.name = n ∧ n ∉ dpadNames ∧ v = buttonPressed data e ∧
        v ≠ st n := by
  induction map generalizing st with
  | nil => simp [recordMapButtons]
  | cons e rest ih =>
    rw [List.map_cons, List.nodup_cons] at hnd
    obtain ⟨hname, hnd2⟩ := hnd
    simp only [recordMapButtons]
    by_cases hd : e.name ∈ dpadNames
    · rw [if_pos hd, ih st hnd2]
      constructor
      · rintro ⟨e2, he2, hrest⟩
        exact ⟨e2, List.mem_cons_of_mem _ he2, hrest⟩
      · rintro ⟨e2, he2, hn, hnd3, hv, hst⟩
        rcases List.mem_cons.mp he2 with he | he
        · subst he
          exact absurd (hn ▸ hd) hnd3
        · exact ⟨e2, he, hn, hnd3, hv, hst⟩
    · rw [if_neg hd]
      by_cases hch : (buttonPressed data e != st e.name) = true
      · have hne : buttonPressed data e ≠ st e.name := bne_iff_ne.mp hch
        rw [if_pos hch, List.mem_cons,
          ih (fun m => if m = e.name then buttonPressed data e else st m) hnd2]
        constructor
        · rintro (heq | ⟨e2, he2, hn, hnd3, hv, hst⟩)
          · have hn : n = e.name := congrArg Prod.fst heq
            have hv : v = buttonPressed data e := congrArg Prod.snd heq
            subst hn
            exact ⟨e, List.mem_cons_self _ _, rfl, hd, hv, by rw [hv]; exact hne⟩
          · have hne2 : n ≠ e.name := by
              intro hcontra
              exact hname (hcontra ▸ hn ▸ List.mem_map_of_mem BtnEntry.name he2)
            rw [if_neg hne2] at hst
            exact ⟨e2, List.mem_cons_of_mem _ he2, hn, hnd3, hv, hst⟩
        · rintro ⟨e2, he2, hn, hnd3, hv, hst⟩
          rcases List.mem_cons.mp he2 with he | he
          · subst he
            subst hn
            left
            rw [hv]
          · right
            have hne2 : n ≠ e2.name → False := fun hc => hc hn.symm
            have hne3 : n ≠ e.name := by
              intro hcontra
              exact hname (hcontra ▸ hn ▸ List.mem_map_of_mem BtnEntry.name he)
            exact ⟨e2, he, hn, hnd3, hv, by rw [if_neg hne3]; exact hst⟩
      · have heqp : buttonPressed data e = st e.name := by
          by_contra hcon
          exact hch (bne_iff_ne.mpr hcon)
        rw [if_neg hch, ih st hnd2]
        constructor
        · rintro ⟨e2, he2, hrest⟩
          exact ⟨e2, List.mem_cons_of_mem _ he2, hrest⟩
        · rintro ⟨e2, he2, hn, hnd3, hv, hst⟩
          rcases List.mem_cons.mp he2 with he | he
          · subst he
            subst hn
            rw [hv, heqp] at hst
            exact absurd rfl hst
          · exact ⟨e2, he, hn, hnd3, hv, hst⟩

/-- C8 amended: a change-set key is present exactly when the newly decoded
value differs from the stored state (per field: sticks, trigger analogs, four
d-pad directions, and, for a button map without duplicate names, each non-dpad
button); battery data is not part of the change object at all.  Furthermore,
when only the stick bytes 0-3 change between two consecutive reports (every
byte from offset 4 on equal, as is the case for all button, d-pad and trigger
bytes of both shipped configs) and the stored state is the decode of the
first report, the change-set has no trigger, d-pad or button key and carries
the `sticks` key exactly when the quantized stick values differ — which can
fail even when the raw stick bytes differ (see the counterexample). -/
theorem change_set_minimality :
    (∀ (prev : ButtonStates) (data : Nat → Nat) (cfg : InputConfig),
      ((recordButtonStates prev data cfg).sticks =
        if decodeSticks data = prev.sticks then none else some (decodeSticks data)) ∧
      ((recordButtonStates prev data cfg).l2_analog =
        if data cfg.l2AnalogByte = prev.l2_analog then none
        else some (data cfg.l2AnalogByte)) ∧
      ((recordButtonStates prev data cfg).r2_analog =
        if data cfg.r2AnalogByte = prev.r2_analog then none
        else some (data cfg.r2AnalogByte)) ∧
      ((recordButtonStates prev data cfg).up =
        if (dpadDecode (data cfg.dpadByte)).up = prev.dpad.up then none
        else some (dpadDecode (data cfg.dpadByte)).up) ∧
      ((recordButtonStates prev data cfg).right =
        if (dpadDecode (data cfg.dpadByte)).right = prev.dpad.right then none
        else some (dpadDecode (data cfg.dpadByte)).right) ∧
      ((recordButtonStates prev data cfg).down =
        if (dpadDecode (data cfg.dpadByte)).down = prev.dpad.down then none
        else some (dpadDecode (data cfg.dpadByte)).down) ∧
      ((recordButtonStates prev data cfg).left =
        if (dpadDecode (data cfg.dpadByte)).left = prev.dpad.left then none
        else some (dpadDecode (data cfg.dpadByte)).left) ∧
      ((cfg.buttonMap.map BtnEntry.name).Nodup → ∀ (n : String) (v : Bool),
        ((n, v) ∈ (recordButtonStates prev data cfg).buttons ↔
          ∃ e ∈ cfg.buttonMap, e.name = n ∧ n ∉ dpadNames ∧
            v = buttonPressed data e ∧ v ≠ prev.buttons n))) ∧
    (∀ (prev : ButtonStates) (d1 d2 : Nat → Nat) (cfg : InputConfig),
      (∀ i, 4 ≤ i → d2 i = d1 i) →
      4 ≤ cfg.dpadByte → 4 ≤ cfg.l2AnalogByte → 4 ≤ cfg.r2AnalogByte →
      (∀ e ∈ cfg.buttonMap, 4 ≤ e.byte) →
      prev.sticks = decodeSticks d1 →
      prev.l2_analog = d1 cfg.l2AnalogByte →
      prev.r2_analog = d1 cfg.r2AnalogByte →
      prev.dpad = dpadDecode (d1 cfg.dpadByte) →
      (∀ e ∈ cfg.buttonMap, prev.buttons e.name = buttonPressed d1 e) →
      recordButtonStates prev d2 cfg =
        { sticks := if decodeSticks d2 = prev.sticks then none
            else some (decodeSticks d2),
          l2_analog := none, r2_analog := none,
          up := none, right := none, down := none, left := none,
          buttons := [] }) := by
  have hsticks : ∀ (prev : ButtonStates) (data : Nat → Nat) (cfg : InputConfig),
      (recordButtonStates prev data cfg).sticks =
        if decodeSticks data = prev.sticks then none else some (decodeSticks data) := by
    intro prev data cfg
    show (if sticksChanged prev.sticks (decodeSticks data) then some (decodeSticks data)
      else none) = _
    by_cases h : decodeSticks data = prev.sticks
    · rw [if_pos h]
      have hf : sticksChanged prev.sticks (decodeSticks data) = false := by
        rw [h]
        exact sticksChanged_self prev.sticks
      rw [hf]
      rfl
    · rw [if_neg h, (sticksChanged_iff _ _).mpr fun he => h he.symm]
      rfl
  have hnat : ∀ (a b : Nat) (s : Option Nat),
      (if (a != b) = true then s else none) = if a = b then none else s := by
    intro a b s
    by_cases h : a = b
    · rw [if_pos h, if_neg (by simp [h, bne])]
    · rw [if_neg h, if_pos (bne_iff_ne.mpr h)]
  have hbool : ∀ (a b : Bool) (s : Option Bool),
      (if (a != b) = true then s else none) = if a = b then none else s := by
    intro a b s
    by_cases h : a = b
    · rw [if_pos h, if_neg (by simp [h, bne])]
    · rw [if_neg h, if_pos (bne_iff_ne.mpr h)]
  refine ⟨fun prev data cfg => ⟨hsticks prev data cfg, hnat _ _ _, hnat _ _ _,
    hbool _ _ _, hbool _ _ _, hbool _ _ _, hbool _ _ _, fun hnd n v => ?_⟩,
    fun prev d1 d2 cfg hb hdp hl2 hr2 hmapb hps hpl2 hpr2 hpd hpbtn => ?_⟩
  · exact recordMapButtons_mem_iff data cfg.buttonMap prev.buttons hnd n v
  · have hdpeq : dpadDecode (d2 cfg.dpadByte) = dpadDecode (d1 cfg.dpadByte) := by
      rw [hb _ hdp]
    refine ChangeSet.ext ?_ ?_ ?_ ?_ ?_ ?_ ?_ ?_
    · rw [hsticks prev d2 cfg]
    · show (if (d2 cfg.l2AnalogByte != prev.l2_analog) = true
        then some (d2 cfg.l2AnalogByte) else none) = none
      rw [hb _ hl2, ← hpl2, bne_self_eq_false]
      rfl
    · show (if (d2 cfg.r2AnalogByte != prev.r2_analog) = true
        then some (d2 cfg.r2AnalogByte) else none) = none
      rw [hb _ hr2, ← hpr2, bne_self_eq_false]
      rfl
    · show (if ((dpadDecode (d2 cfg.dpadByte)).up != prev.dpad.up) = true
        then some (dpadDecode (d2 cfg.dpadByte)).up else none) = none
      rw [hdpeq, ← hpd, bne_self_eq_false]
      rfl
    · show (if ((dpadDecode (d2 cfg.dpadByte)).right != prev.dpad.right) = true
        then some (dpadDecode (d2 cfg.dpadByte)).right else none) = none
      rw [hdpeq, ← hpd, bne_self_eq_false]
      rfl
    · show (if ((dpadDecode (d2 cfg.dpadByte)).down != prev.dpad.down) = true
        then some (dpadDecode (d2 cfg.dpadByte)).down else none) = none
      rw [hdpeq, ← hpd, bne_self_eq_false]
      rfl
    · show (if ((dpadDecode (d2 cfg.dpadByte)).left != prev.dpad.left) = true
        then some (dpadDecode (d2 cfg.dpadByte)).left else none) = none
      rw [hdpeq, ← hpd, bne_self_eq_false]
      rfl
    · show recordMapButtons d2 cfg.buttonMap prev.buttons = []
      refine recordMapButtons_eq_nil d2 cfg.buttonMap prev.buttons fun e he => ?_
      rw [buttonPressed, hb _ (hmapb e he), ← buttonPressed, (hpbtn e he).symm]

/-- First raw report of the counterexample/witness scenario: left stick X byte
127, d-pad byte 8 (hat neutral), every other byte 0. -/
def R127 : Nat → Nat := fun i => if i = 0 then 127 else if i = 4 then 8 else 0

/-- Second report: identical to `R127` except the left stick X byte is 128. -/
def R128 : Nat → Nat := fun i => if i = 0 then 128 else R127 i

/-- Third report: identical to `R127` except the left stick X byte is 255. -/
def R255 : Nat → Nat := fun i => if i = 0 then 255 else R127 i

/-- The stored state after decoding `R127` with the DS4 config. -/
def prev127 : ButtonStates :=
  { sticks := decodeSticks R127,
    l2_analog := R127 7,
    r2_analog := R127 8,
    dpad := dpadDecode (R127 4),
    buttons := fun _ => false }

/-- C8 counterexample: between `R127` and `R128` only the left stick byte
changes (127 to 128; bytes 1-8 and all later bytes are equal by definition of
`R128`), yet the change-set is completely empty — it does not contain the
`sticks` key, because both bytes quantize to 0.0. -/
theorem change_set_127_to_128_is_empty :
    R127 0 = 127 ∧ R128 0 = 128 ∧ R128 4 = R127 4 ∧ R128 5 = R127 5 ∧
    R128 6 = R127 6 ∧ R128 7 = R127 7 ∧ R128 8 = R127 8 ∧
    recordButtonStates prev127 R128 DS4_INPUT_CONFIG =
      { sticks := none, l2_analog := none, r2_analog := none,
        up := none, right := none, down := none, left := none, buttons := [] } := by
  refine ⟨rfl, rfl, rfl, rfl, rfl, rfl, rfl, ?_⟩
  have hsd : decodeSticks R128 = decodeSticks R127 := by
    rw [decodeSticks, decodeSticks, show R128 0 = 128 from rfl,
      show R127 0 = 127 from rfl, stickDecode_128, stickDecode_127,
      show R128 1 = R127 1 from rfl, show R128 2 = R127 2 from rfl,
      show R128 3 = R127 3 from rfl]
  have hchanged : sticksChanged prev127.sticks (decodeSticks R128) = false := by
    rw [hsd]
    exact sticksChanged_self (decodeSticks R127)
  refine ChangeSet.ext ?_ (by decide) (by decide) (by decide) (by decide) (by decide)
    (by decide) (by decide)
  show (if sticksChanged prev127.sticks (decodeSticks R128) = true
    then some (decodeSticks R128) else none) = none
  rw [hchanged]
  rfl

/-- C8 witness: applying the scenario part of the minimality theorem to the
reports `R127` and `R255` (only the left stick byte changes, 127 to 255) with
the stored state decoded from `R127` and the DS4 config. -/
theorem change_set_minimality_witness :
    recordButtonStates prev127 R255 DS4_INPUT_CONFIG =
      { sticks := if decodeSticks R255 = prev127.sticks then none
          else some (decodeSticks R255),
        l2_analog := none, r2_analog := none,
        up := none, right := none, down := none, left := none,
        buttons := [] } :=
  change_set_minimality.2 prev127 R127 R255 DS4_INPUT_CONFIG
    (fun i hi => by
      show (if i = 0 then 255 else R127 i) = R127 i
      rw [if_neg (by omega)])
    (by decide) (by decide) (by decide) (by decide)
    rfl rfl rfl rfl (by decide)
